import Mathlib

/-!
Shallow embedding of the ticket_api repository (src/ticket_api/tickets):
data model (models.py / schemas.py), repositories (repository.py),
service (service.py) and the relevant router handlers (router.py).
UUIDs are modelled as natural numbers; timestamps as natural numbers drawn
from a per-database clock that advances on every INSERT (matching the
`server_default=func.now()` column defaults); the database state is explicit
and passed through every operation.
-/

deriving instance DecidableEq for Except

namespace TicketApi

/-- Typed error outcomes of the service and router layers, carrying the
`detail` string of the corresponding `HTTPException` (`notFound` = 404,
`forbidden` = 403, `conflict` = 409, `unprocessable` = 422,
`invalidInput` = a pydantic validation failure surfaced as 422, `internal` =
an uncaught exception surfaced as 500). -/
inductive ApiError where
  | notFound (detail : String)
  | forbidden (detail : String)
  | conflict (detail : String)
  | unprocessable (detail : String)
  | invalidInput (detail : String)
  | internal (detail : String)
deriving DecidableEq, Repr

/-- External user entity (auth/models.py), consumed through the user lookup:
only the id and the superuser flag matter to the ticket service. -/
structure User where
  id : Nat
  is_superuser : Bool
deriving DecidableEq, Repr

/-- Embeds `TicketStatus` row from models.py: unique id, unique name. -/
structure TicketStatus where
  id : Nat
  name : String
deriving DecidableEq, Repr

/-- Embeds `Ticket` row from models.py: `user_id` is a NOT NULL foreign key to
users (ondelete CASCADE), `status_id` a nullable foreign key to
ticket_statuses (ondelete SET NULL), `created_at` a NOT NULL timestamp
filled by the database default at insertion time. -/
structure Ticket where
  id : Nat
  title : String
  description : String
  user_id : Nat
  status_id : Option Nat
  created_at : Nat
deriving DecidableEq, Repr

/-- Embeds `Message` row from models.py: `ticket_id` is a NOT NULL foreign key to
tickets (ondelete CASCADE); `created_at` is filled by the database default. -/
structure Message where
  id : Nat
  ticket_id : Nat
  content : String
  is_ai : Bool
  created_at : Nat
deriving DecidableEq, Repr

/-- The persisted database state: the four tables, a fresh-id source for the
`default=uuid.uuid4` primary keys, and a clock for the `func.now()`
timestamp defaults. Rows are kept in insertion order. -/
structure DB where
  users : List User
  statuses : List TicketStatus
  tickets : List Ticket
  messages : List Message
  next_id : Nat
  clock : Nat
deriving DecidableEq, Repr

/-- Well-formedness of a database state: every primary key already present
is below the fresh-id source, so a freshly inserted row never collides with
an existing one (this is exactly what `uuid4` defaults give the source). -/
def DB.wf (db : DB) : Prop :=
  (∀ t ∈ db.tickets, t.id < db.next_id) ∧
  (∀ m ∈ db.messages, m.id < db.next_id) ∧
  (∀ s ∈ db.statuses, s.id < db.next_id)

instance (db : DB) : Decidable db.wf := by
  unfold DB.wf; infer_instance

/-- Embeds `is_valid_uuid` from service.py: checks that `str(x)` parses as a UUID.
Every id reaching the service in this development is an already-parsed
`uuid.UUID` value (modelled as a `Nat`), and `str()` of such a value always
re-parses, so the check succeeds on the whole modelled domain; the 422
branches guarded by it are unreachable for well-formed ids. -/
def is_valid_uuid (_ : Nat) : Bool := true

/-- Embeds `TicketCreate` from schemas.py: `description` defaults to the empty
string, `status_id` and `user_id` default to `None`. -/
structure TicketCreate where
  title : String
  description : String := ""
  status_id : Option Nat := none
  user_id : Option Nat := none
deriving DecidableEq, Repr

/-- Embeds `TicketUpdate` from schemas.py with pydantic field-set tracking
(`exclude_unset=True` in the repository): the outer `Option` is `none` when
the field was not provided at all, and `some v` when it was explicitly
provided with value `v`; for `title` and `description` an explicitly
provided `null` is `some none`, for `status_id` it is `some none`. -/
structure TicketUpdate where
  title : Option (Option String) := none
  description : Option (Option String) := none
  status_id : Option (Option Nat) := none
deriving DecidableEq, Repr

/-- Embeds `TicketStatusCreate` from schemas.py, already past the
`validate_name` field validator. -/
structure TicketStatusCreate where
  name : String
deriving DecidableEq, Repr

/-- Embeds `MessageCreate` from schemas.py: `is_ai` defaults to false. -/
structure MessageCreate where
  content : String
  is_ai : Bool := false
deriving DecidableEq, Repr

/-- Python `str.lower`: lowercase every character. -/
def str_lower (s : String) : String :=
  ⟨s.data.map Char.toLower⟩

/-- Python `str.strip`: remove leading and trailing whitespace. -/
def str_strip (s : String) : String :=
  ⟨((s.data.dropWhile Char.isWhitespace).reverse.dropWhile Char.isWhitespace).reverse⟩

/-- Embeds `TicketStatusBase.validate_name` from schemas.py: lowercase, then strip
surrounding whitespace; reject an empty result. -/
def validate_name (value : String) : Except String String :=
  let v := str_strip (str_lower value)
  if v = "" then .error "Name cannot be empty." else .ok v

/-- Construction of a `TicketStatusCreate` request body: the pydantic
validator runs before the handler, and a validation failure is surfaced to
the caller as an invalid-input outcome. -/
def TicketStatusCreate.make (raw : String) : Except ApiError TicketStatusCreate :=
  match validate_name raw with
  | .error e => .error (.invalidInput e)
  | .ok v => .ok ⟨v⟩

/-- Embeds `SQLAlchemyUserDatabase.get` as used by the service: look a user up by
id. The service sometimes passes an optional id (`TicketCreate.user_id`);
a `None` id selects `users.id IS NULL`, which never matches the NOT NULL
primary key, so the lookup returns no user. -/
def UserRepository.get (db : DB) (user_id : Option Nat) : Option User :=
  match user_id with
  | none => none
  | some uid => db.users.find? (fun u => u.id == uid)

/-- Embeds `TicketRepository.exists` from repository.py. -/
def TicketRepository.exists (db : DB) (ticket_id : Nat) : Bool :=
  db.tickets.any (fun t => t.id == ticket_id)

/-- Embeds `TicketRepository.get` from repository.py. -/
def TicketRepository.get (db : DB) (ticket_id : Nat) : Option Ticket :=
  db.tickets.find? (fun t => t.id == ticket_id)

/-- Embeds `TicketRepository.get_all` from repository.py. -/
def TicketRepository.get_all (db : DB) : List Ticket :=
  db.tickets

/-- Embeds `TicketRepository.get_all_by_user` from repository.py. -/
def TicketRepository.get_all_by_user (db : DB) (user_id : Nat) : List Ticket :=
  db.tickets.filter (fun t => t.user_id == user_id)

/-- Embeds `TicketRepository.create` from repository.py: INSERT with the database
defaults filling `id` and `created_at`, commit, then re-read the
just-written row by the returned id. An absent `user_id` violates the NOT
NULL constraint and a dangling `user_id`/`status_id` violates the foreign
keys; each surfaces as an uncaught `IntegrityError` (`.error`). -/
def TicketRepository.create (db : DB) (tc : TicketCreate) :
    Except String (Option Ticket × DB) :=
  match tc.user_id with
  | none => .error "IntegrityError: NOT NULL constraint failed: tickets.user_id"
  | some uid =>
    if !db.users.any (fun u => u.id == uid) then
      .error "IntegrityError: FOREIGN KEY constraint failed: tickets.user_id"
    else if tc.status_id.any (fun sid => !db.statuses.any (fun s => s.id == sid)) then
      .error "IntegrityError: FOREIGN KEY constraint failed: tickets.status_id"
    else
      let t : Ticket :=
        { id := db.next_id, title := tc.title, description := tc.description,
          user_id := uid, status_id := tc.status_id, created_at := db.clock }
      let db' : DB :=
        { db with tickets := db.tickets ++ [t],
                  next_id := db.next_id + 1, clock := db.clock + 1 }
      .ok (TicketRepository.get db' t.id, db')

/-- Application of the explicitly provided fields of a `TicketUpdate` to a
ticket row (`model_dump(exclude_unset=True)` followed by `UPDATE ... VALUES`):
an unset field keeps the stored value, a set field overwrites it. This is
only reached once the NOT NULL guards of `TicketRepository.update` have
ruled out explicit nulls for `title` and `description`. -/
def applyTicketUpdate (tu : TicketUpdate) (t : Ticket) : Ticket :=
  { t with
    title := (tu.title.getD (some t.title)).getD t.title,
    description := (tu.description.getD (some t.description)).getD t.description,
    status_id := tu.status_id.getD t.status_id }

/-- Embeds `TicketRepository.update` from repository.py: UPDATE of the explicitly
provided fields, commit, then re-read the just-written row. An explicit
null for `title`/`description` violates NOT NULL and a dangling `status_id`
the foreign key (uncaught `IntegrityError`); an absent row makes
`scalar_one()` on the RETURNING result raise (`NoResultFound`). -/
def TicketRepository.update (db : DB) (ticket_id : Nat) (tu : TicketUpdate) :
    Except String (Option Ticket × DB) :=
  if tu.title == some none || tu.description == some none then
    .error "IntegrityError: NOT NULL constraint failed"
  else if (match tu.status_id with
           | some (some sid) => !db.statuses.any (fun s => s.id == sid)
           | _ => false) then
    .error "IntegrityError: FOREIGN KEY constraint failed: tickets.status_id"
  else if !(TicketRepository.exists db ticket_id) then
    .error "NoResultFound"
  else
    let updated := db.tickets.map
      (fun t => if t.id == ticket_id then applyTicketUpdate tu t else t)
    let db' : DB := { db with tickets := updated }
    .ok (TicketRepository.get db' ticket_id, db')

/-- Embeds `TicketRepository.delete` from repository.py: DELETE of the row; the
declared foreign key `messages.ticket_id` carries `ondelete="CASCADE"`
(models.py), so the messages of the ticket are removed with it. -/
def TicketRepository.delete (db : DB) (ticket_id : Nat) : DB :=
  { db with tickets := db.tickets.filter (fun t => t.id != ticket_id),
            messages := db.messages.filter (fun m => m.ticket_id != ticket_id) }

/-- Embeds `TicketStatusRepository.exists` from repository.py. The service calls
it both with a plain id and with the optional `TicketCreate.status_id`;
SQLAlchemy renders a comparison against Python `None` as
`ticket_statuses.id IS NULL`, which never matches the NOT NULL primary key,
so `exists(None)` evaluates to false rather than raising. -/
def TicketStatusRepository.exists (db : DB) (status_id : Option Nat) : Bool :=
  match status_id with
  | none => false
  | some sid => db.statuses.any (fun s => s.id == sid)

/-- Embeds `TicketStatusRepository.get` from repository.py. -/
def TicketStatusRepository.get (db : DB) (status_id : Nat) : Option TicketStatus :=
  db.statuses.find? (fun s => s.id == status_id)

/-- Embeds `TicketStatusRepository.get_all` from repository.py. -/
def TicketStatusRepository.get_all (db : DB) : List TicketStatus :=
  db.statuses

/-- Embeds `TicketStatusRepository.create` from repository.py: INSERT, commit,
re-read by returned id. A duplicate name violates the UNIQUE constraint on
`ticket_statuses.name` and raises `IntegrityError` (`.error`). -/
def TicketStatusRepository.create (db : DB) (sc : TicketStatusCreate) :
    Except String (Option TicketStatus × DB) :=
  if db.statuses.any (fun s => s.name == sc.name) then
    .error "IntegrityError: UNIQUE constraint failed: ticket_statuses.name"
  else
    let s : TicketStatus := { id := db.next_id, name := sc.name }
    let db' : DB :=
      { db with statuses := db.statuses ++ [s], next_id := db.next_id + 1 }
    .ok (TicketStatusRepository.get db' s.id, db')

/-- Embeds `TicketStatusRepository.delete` from repository.py: DELETE of the row;
the declared foreign key `tickets.status_id` carries `ondelete="SET NULL"`
(models.py), so every ticket referencing the status keeps its other fields
and has its `status_id` cleared to null. -/
def TicketStatusRepository.delete (db : DB) (status_id : Nat) : DB :=
  let cleared := db.tickets.map
    (fun t => if t.status_id == some status_id
              then { t with status_id := none } else t)
  { db with statuses := db.statuses.filter (fun s => s.id != status_id),
            tickets := cleared }

/-- Embeds `MessageRepository.get` from repository.py. -/
def MessageRepository.get (db : DB) (message_id : Nat) : Option Message :=
  db.messages.find? (fun m => m.id == message_id)

/-- Embeds `MessageRepository.create` from repository.py: INSERT with database
defaults for `id` and `created_at`, commit, re-read by returned id; a
dangling `ticket_id` violates the foreign key (uncaught `IntegrityError`). -/
def MessageRepository.create (db : DB) (ticket_id : Nat) (mc : MessageCreate) :
    Except String (Option Message × DB) :=
  if !db.tickets.any (fun t => t.id == ticket_id) then
    .error "IntegrityError: FOREIGN KEY constraint failed: messages.ticket_id"
  else
    let m : Message :=
      { id := db.next_id, ticket_id := ticket_id, content := mc.content,
        is_ai := mc.is_ai, created_at := db.clock }
    let db' : DB :=
      { db with messages := db.messages ++ [m],
                next_id := db.next_id + 1, clock := db.clock + 1 }
    .ok (MessageRepository.get db' m.id, db')

/-- Embeds `MessageRepository.get_all_by_ticket` from repository.py: the messages
of the ticket, `ORDER BY created_at ASC`. -/
def MessageRepository.get_all_by_ticket (db : DB) (ticket_id : Nat) : List Message :=
  (db.messages.filter (fun m => m.ticket_id == ticket_id)).mergeSort
    (fun a b => decide (a.created_at ≤ b.created_at))

/-- Embeds `MessageRepository.get_last_customer_message` from repository.py: the
messages of the ticket with `is_ai` false, `ORDER BY created_at DESC
LIMIT 1`. -/
def MessageRepository.get_last_customer_message (db : DB) (ticket_id : Nat) :
    Option Message :=
  ((db.messages.filter (fun m => m.ticket_id == ticket_id && m.is_ai == false)).mergeSort
    (fun a b => decide (b.created_at ≤ a.created_at))).head?

/-- Embeds `TicketService.create_ticket` from service.py: validate that the owner
exists (404 "User not found" otherwise), validate the status reference with
`ticket_status_repository.exists(ticket_create.status_id)` (404 "Ticket
status not found" otherwise — note the check is applied to the optional
value itself, with no guard for an absent status id), then insert through
the repository and return the re-read row. -/
def TicketService.create_ticket (db : DB) (tc : TicketCreate) :
    Except ApiError (Ticket × DB) :=
  if (UserRepository.get db tc.user_id).isNone then
    .error (.notFound "User not found")
  else if !(TicketStatusRepository.exists db tc.status_id) then
    .error (.notFound "Ticket status not found")
  else
    match TicketRepository.create db tc with
    | .error e => .error (.internal e)
    | .ok (none, _) => .error (.internal "TicketRead validation of None")
    | .ok (some t, db') => .ok (t, db')

/-- Embeds `TicketService.get_ticket` from service.py. -/
def TicketService.get_ticket (db : DB) (ticket_id : Nat) : Except ApiError Ticket :=
  if !(is_valid_uuid ticket_id) then
    .error (.unprocessable "Invalid ticket ID")
  else
    match TicketRepository.get db ticket_id with
    | none => .error (.notFound "Ticket not found")
    | some t => .ok t

/-- Embeds `TicketService.get_all_tickets` from service.py. -/
def TicketService.get_all_tickets (db : DB) : List Ticket :=
  TicketRepository.get_all db

/-- Embeds `TicketService.get_all_tickets_by_user` from service.py. -/
def TicketService.get_all_tickets_by_user (db : DB) (user_id : Nat) :
    Except ApiError (List Ticket) :=
  if !(is_valid_uuid user_id) then
    .error (.unprocessable "Invalid user ID")
  else if (UserRepository.get db (some user_id)).isNone then
    .error (.notFound "User not found")
  else
    .ok (TicketRepository.get_all_by_user db user_id)

/-- Embeds `TicketService.update_ticket` from service.py: 404 if the ticket is
absent; the status validation runs only when `ticket_update.status_id` is
truthy, that is, only when an actual status id was provided (both an unset
field and an explicit null are falsy Python `None`). -/
def TicketService.update_ticket (db : DB) (ticket_id : Nat) (tu : TicketUpdate) :
    Except ApiError (Ticket × DB) :=
  if !(is_valid_uuid ticket_id) then
    .error (.unprocessable "Invalid ticket ID")
  else if !(TicketRepository.exists db ticket_id) then
    .error (.notFound "Ticket not found")
  else if (match tu.status_id with
           | some (some sid) => !(TicketStatusRepository.exists db (some sid))
           | _ => false) then
    .error (.notFound "Ticket status not found")
  else
    match TicketRepository.update db ticket_id tu with
    | .error e => .error (.internal e)
    | .ok (none, _) => .error (.internal "TicketRead validation of None")
    | .ok (some t, db') => .ok (t, db')

/-- Embeds `TicketService.delete_ticket` from service.py. -/
def TicketService.delete_ticket (db : DB) (ticket_id : Nat) : Except ApiError DB :=
  if !(is_valid_uuid ticket_id) then
    .error (.unprocessable "Invalid ticket ID")
  else if !(TicketRepository.exists db ticket_id) then
    .error (.notFound "Ticket not found")
  else
    .ok (TicketRepository.delete db ticket_id)

/-- Embeds `TicketService.is_ticket_accessible` from service.py: resolve the user
(404 "User not found"), then the ticket (404 "Ticket not found"), then
grant access to a superuser or to the owner and fail 403 otherwise. -/
def TicketService.is_ticket_accessible (db : DB) (ticket_id user_id : Nat) :
    Except ApiError Bool :=
  if !(is_valid_uuid ticket_id) then
    .error (.unprocessable "Invalid ticket ID")
  else if !(is_valid_uuid user_id) then
    .error (.unprocessable "Invalid user ID")
  else
    match UserRepository.get db (some user_id) with
    | none => .error (.notFound "User not found")
    | some user =>
      match TicketRepository.get db ticket_id with
      | none => .error (.notFound "Ticket not found")
      | some db_ticket =>
        if user.is_superuser then .ok true
        else if db_ticket.user_id == user_id then .ok true
        else .error (.forbidden "You do not have permission to access this ticket.")

/-- Embeds `TicketService.create_ticket_status` from service.py: the repository
insert, with `IntegrityError` translated to 409. -/
def TicketService.create_ticket_status (db : DB) (sc : TicketStatusCreate) :
    Except ApiError (TicketStatus × DB) :=
  match TicketStatusRepository.create db sc with
  | .error _ => .error (.conflict "Ticket status with this name already exists")
  | .ok (none, _) => .error (.internal "TicketStatusRead validation of None")
  | .ok (some s, db') => .ok (s, db')

/-- Embeds `TicketService.get_ticket_status` from service.py. -/
def TicketService.get_ticket_status (db : DB) (status_id : Nat) :
    Except ApiError TicketStatus :=
  if !(is_valid_uuid status_id) then
    .error (.unprocessable "Invalid ticket status ID")
  else
    match TicketStatusRepository.get db status_id with
    | none => .error (.notFound "Ticket status not found")
    | some s => .ok s

/-- Embeds `TicketService.delete_ticket_status` from service.py. -/
def TicketService.delete_ticket_status (db : DB) (status_id : Nat) :
    Except ApiError DB :=
  if !(is_valid_uuid status_id) then
    .error (.unprocessable "Invalid ticket status ID")
  else if !(TicketStatusRepository.exists db (some status_id)) then
    .error (.notFound "Ticket status not found")
  else
    .ok (TicketStatusRepository.delete db status_id)

/-- Embeds `TicketService.create_message` from service.py: 404 if the ticket is
absent, then the repository insert and the re-read row. -/
def TicketService.create_message (db : DB) (ticket_id : Nat) (mc : MessageCreate) :
    Except ApiError (Message × DB) :=
  if !(is_valid_uuid ticket_id) then
    .error (.unprocessable "Invalid ticket ID")
  else if !(TicketRepository.exists db ticket_id) then
    .error (.notFound "Ticket not found")
  else
    match MessageRepository.create db ticket_id mc with
    | .error e => .error (.internal e)
    | .ok (none, _) => .error (.internal "MessageRead validation of None")
    | .ok (some m, db') => .ok (m, db')

/-- Embeds `TicketService.get_ticket_messages` from service.py. -/
def TicketService.get_ticket_messages (db : DB) (ticket_id : Nat) :
    Except ApiError (List Message) :=
  if !(is_valid_uuid ticket_id) then
    .error (.unprocessable "Invalid ticket ID")
  else if !(TicketRepository.exists db ticket_id) then
    .error (.notFound "Ticket not found")
  else
    .ok (MessageRepository.get_all_by_ticket db ticket_id)

/-- Embeds `TicketService.get_last_customer_message` from service.py. -/
def TicketService.get_last_customer_message (db : DB) (ticket_id : Nat) :
    Except ApiError (Option Message) :=
  if !(is_valid_uuid ticket_id) then
    .error (.unprocessable "Invalid ticket ID")
  else if !(TicketRepository.exists db ticket_id) then
    .error (.notFound "Ticket not found")
  else
    .ok (MessageRepository.get_last_customer_message db ticket_id)

/-- Handler `get_ticket` of `GET /tickets/(ticket_id)` from router.py, after
authentication resolved `current_user`. The handler body evaluates
`ticket_service.is_ticket_accessible(ticket_id, current_user.id)` WITHOUT
`await`: the coroutine object is created and immediately discarded, none of
its checks run and no exception can be raised from it, so the line has no
observable effect and is embedded as a no-op; the handler then returns
`get_ticket`. -/
def Router.get_ticket (db : DB) (ticket_id : Nat) (current_user : User) :
    Except ApiError Ticket :=
  let _unawaited := fun () => TicketService.is_ticket_accessible db ticket_id current_user.id
  TicketService.get_ticket db ticket_id

/-- Handler `update_ticket` of `PUT /tickets/(ticket_id)` from router.py:
as in `Router.get_ticket`, the `is_ticket_accessible` coroutine is created
without `await` and discarded (no-op), then the update is performed. -/
def Router.update_ticket (db : DB) (ticket_id : Nat) (tu : TicketUpdate)
    (current_user : User) : Except ApiError (Ticket × DB) :=
  let _unawaited := fun () => TicketService.is_ticket_accessible db ticket_id current_user.id
  TicketService.update_ticket db ticket_id tu

/-- Handler `delete_ticket` of `DELETE /tickets/(ticket_id)` from
router.py: as in `Router.get_ticket`, the `is_ticket_accessible` coroutine
is created without `await` and discarded (no-op), then the delete is
performed. -/
def Router.delete_ticket (db : DB) (ticket_id : Nat) (current_user : User) :
    Except ApiError DB :=
  let _unawaited := fun () => TicketService.is_ticket_accessible db ticket_id current_user.id
  TicketService.delete_ticket db ticket_id

/-- Handler `create_ticket_status` of `POST /tickets/statuses` from
router.py, including the pydantic validation of the request body that runs
before the handler; the superuser gate is a dependency resolved before the
body and is outside this embedding. -/
def Router.create_ticket_status (db : DB) (raw_name : String) :
    Except ApiError (TicketStatus × DB) :=
  match TicketStatusCreate.make raw_name with
  | .error e => .error e
  | .ok sc => TicketService.create_ticket_status db sc

/-- The fragment loop of `event_generator` inside `stream_ai_response`
(router.py): iterate over the generated fragments, stop at a `None`
sentinel, concatenate every fragment seen into `content` and yield it to
the transport. Returns the yielded fragments in order and the final
accumulated content. -/
def event_generator_loop (content : String) :
    List (Option String) → List String × String
  | [] => ([], content)
  | none :: _ => ([], content)
  | some c :: rest =>
    let r := event_generator_loop (content ++ c) rest
    (c :: r.1, r.2)

/-- Embeds `event_generator` from `stream_ai_response` (router.py): run the
fragment loop starting from the empty buffer, then persist the accumulated
content exactly once as a new message with `is_ai := true` through
`ticket_service.create_message`. The generation of the fragment sequence
itself is the external text-generation capability, taken here as the input
list; a `none` entry is the `None` sentinel chunk. -/
def event_generator (db : DB) (ticket_id : Nat) (fragments : List (Option String)) :
    List String × Except ApiError (Message × DB) :=
  let r := event_generator_loop "" fragments
  (r.1, TicketService.create_message db ticket_id { content := r.2, is_ai := true })

/-- Looking a freshly appended row up by its id finds exactly that row,
provided every pre-existing id is smaller (which the fresh-id source
guarantees). -/
theorem find?_append_fresh {α : Type} (key : α → Nat) (xs : List α) (x : α)
    (h : ∀ y ∈ xs, key y < key x) :
    (xs ++ [x]).find? (fun y => key y == key x) = some x := by
  induction xs with
  | nil => simp
  | cons hd tl ih =>
    have hlt := h hd (List.mem_cons_self hd tl)
    have hne : (key hd == key x) = false := by
      simp only [beq_eq_false_iff_ne]
      omega
    simp only [List.cons_append, List.find?_cons, hne]
    exact ih (fun y hy => h y (List.mem_cons_of_mem hd hy))

/-- Sample database: user 1 is the owner A, user 2 is B (not a superuser),
user 3 is C (a superuser); one status 4 named "open"; ticket 10 owned by
user 1; one customer message on ticket 10. -/
def sampleDB : DB :=
  { users := [⟨1, false⟩, ⟨2, false⟩, ⟨3, true⟩],
    statuses := [⟨4, "open"⟩],
    tickets := [⟨10, "t", "d", 1, some 4, 0⟩],
    messages := [⟨5, 10, "help", false, 0⟩],
    next_id := 11, clock := 1 }

/-- C1: the claim states that a non-superuser B who does not own ticket T
gets Forbidden (403) from the GET/PUT/DELETE ticket handlers and that the
operation is not performed. The service gate would indeed fail Forbidden
(first conjunct), and the handler docstrings and the router test-suite
(test_get_ticket_not_owner and friends) expect 403 — but the handlers call
`is_ticket_accessible` without `await`, so the gate never runs: B reads,
updates and deletes the ticket of A successfully (remaining conjuncts
evaluate the handlers at the concrete failing input). The superuser half of
the claim holds trivially, since no check runs for any caller. -/
theorem c1_router_handlers_skip_access_check :
    TicketService.is_ticket_accessible sampleDB 10 2 =
      .error (.forbidden "You do not have permission to access this ticket.") ∧
    Router.get_ticket sampleDB 10 ⟨2, false⟩ = .ok ⟨10, "t", "d", 1, some 4, 0⟩ ∧
    Router.update_ticket sampleDB 10 { title := some (some "hacked") } ⟨2, false⟩ =
      .ok (⟨10, "hacked", "d", 1, some 4, 0⟩,
           { sampleDB with tickets := [⟨10, "hacked", "d", 1, some 4, 0⟩] }) ∧
    Router.delete_ticket sampleDB 10 ⟨2, false⟩ =
      .ok { sampleDB with tickets := [], messages := [] } := by
  decide

/-- C3: the claim states that a create_ticket request with no status
(status_id left as None) succeeds and creates a ticket with no status. The
code instead evaluates `ticket_status_repository.exists(None)`, which
selects `ticket_statuses.id IS NULL` — always false for the NOT NULL
primary key — and so fails NotFound "Ticket status not found" even though
the owner (user 1) exists: evaluation of the service at this concrete
input. The nullable column, the schema default of None and the guarded
status check in update_ticket all say None must be allowed, so this is a
slip in create_ticket (a missing None guard), not intent. -/
theorem c3_create_ticket_none_status_rejected :
    TicketService.create_ticket sampleDB { title := "no status", user_id := some 1 } =
      .error (.notFound "Ticket status not found") := by
  decide

/-- C2: `is_ticket_accessible(T, U)` fails NotFound "User not found" when U
is absent (regardless of the ticket, which shows the user check runs
first), fails NotFound "Ticket not found" when U exists and T is absent,
and when both exist returns true exactly when U is a superuser or owns T,
fails Forbidden otherwise, and never returns false. -/
theorem c2_is_ticket_accessible_spec (db : DB) (tid uid : Nat) :
    (UserRepository.get db (some uid) = none →
      TicketService.is_ticket_accessible db tid uid =
        .error (.notFound "User not found")) ∧
    (∀ u, UserRepository.get db (some uid) = some u →
      TicketRepository.get db tid = none →
      TicketService.is_ticket_accessible db tid uid =
        .error (.notFound "Ticket not found")) ∧
    (∀ u t, UserRepository.get db (some uid) = some u →
      TicketRepository.get db tid = some t →
      ((u.is_superuser = true ∨ t.user_id = uid) →
        TicketService.is_ticket_accessible db tid uid = .ok true) ∧
      (¬(u.is_superuser = true ∨ t.user_id = uid) →
        TicketService.is_ticket_accessible db tid uid =
          .error (.forbidden "You do not have permission to access this ticket."))) ∧
    (∀ b, TicketService.is_ticket_accessible db tid uid = .ok b → b = true) := by
  refine ⟨?_, ?_, ?_, ?_⟩
  · intro h
    simp [TicketService.is_ticket_accessible, is_valid_uuid, h]
  · intro u hu ht
    simp [TicketService.is_ticket_accessible, is_valid_uuid, hu, ht]
  · intro u t hu ht
    constructor
    · intro hor
      rcases hor with hs | ho
      · simp [TicketService.is_ticket_accessible, is_valid_uuid, hu, ht, hs]
      · by_cases hs : u.is_superuser <;>
          simp [TicketService.is_ticket_accessible, is_valid_uuid, hu, ht, hs, ho]
    · intro hnor
      push_neg at hnor
      simp [TicketService.is_ticket_accessible, is_valid_uuid, hu, ht,
            hnor.1, hnor.2]
  · intro b hb
    rcases hu : UserRepository.get db (some uid) with _ | u
    · simp [TicketService.is_ticket_accessible, is_valid_uuid, hu] at hb
    · rcases ht : TicketRepository.get db tid with _ | t
      · simp [TicketService.is_ticket_accessible, is_valid_uuid, hu, ht] at hb
      · by_cases hs : u.is_superuser <;>
          by_cases ho : t.user_id = uid <;>
          simp [TicketService.is_ticket_accessible, is_valid_uuid,
                hu, ht, hs, ho] at hb <;>
          simp [hb]

/-- Witness for C2: in the sample database, user 2 exists and does not own
ticket 10 and is not a superuser, so the gate fails Forbidden. -/
theorem c2_is_ticket_accessible_spec_witness :
    TicketService.is_ticket_accessible sampleDB 10 2 =
      .error (.forbidden "You do not have permission to access this ticket.") := by
  have h := (c2_is_ticket_accessible_spec sampleDB 10 2).2.2.1
    ⟨2, false⟩ ⟨10, "t", "d", 1, some 4, 0⟩ (by decide) (by decide)
  exact h.2 (by decide)

/-- Folding string concatenation from an accumulator splits off the
accumulator. -/
theorem foldl_append_acc (l : List String) :
    ∀ acc : String, l.foldl (fun r s => r ++ s) acc =
      acc ++ l.foldl (fun r s => r ++ s) "" := by
  induction l with
  | nil => intro acc; simp
  | cons hd tl ih =>
    intro acc
    simp only [List.foldl_cons]
    rw [ih (acc ++ hd), ih ("" ++ hd), String.empty_append, String.append_assoc]

/-- Lemma: `String.join` splits a head off. -/
theorem string_join_cons (c : String) (cs : List String) :
    String.join (c :: cs) = c ++ String.join cs := by
  simp only [String.join, List.foldl_cons, String.empty_append]
  exact foldl_append_acc cs c

/-- The fragment loop yields exactly the fragments before the first `None`
sentinel, in order, and accumulates their left-to-right concatenation onto
the incoming buffer. -/
theorem event_generator_loop_spec (fs : List (Option String)) :
    ∀ acc : String, event_generator_loop acc fs =
      ((fs.takeWhile Option.isSome).filterMap id,
       acc ++ String.join ((fs.takeWhile Option.isSome).filterMap id)) := by
  induction fs with
  | nil => intro acc; simp [event_generator_loop, String.join]
  | cons hd tl ih =>
    intro acc
    cases hd with
    | none => simp [event_generator_loop, List.takeWhile, String.join]
    | some c =>
      simp only [event_generator_loop, ih (acc ++ c), List.takeWhile]
      simp [string_join_cons, String.append_assoc]

/-- C4: for an existing ticket T and any finite fragment sequence, the
streaming generator forwards to the transport exactly the fragments before
the first `None` sentinel, in order, and then persists exactly one new
message on T with `is_ai = true` whose content is the left-to-right
concatenation of those fragments; every other table is untouched. -/
theorem c4_event_generator_streams_and_persists (db : DB) (tid : Nat)
    (fragments : List (Option String)) (hwf : db.wf)
    (hex : TicketRepository.exists db tid = true) :
    ∃ m db',
      (event_generator db tid fragments).1 =
        (fragments.takeWhile Option.isSome).filterMap id ∧
      (event_generator db tid fragments).2 = .ok (m, db') ∧
      m.is_ai = true ∧ m.ticket_id = tid ∧
      m.content = String.join ((fragments.takeWhile Option.isSome).filterMap id) ∧
      db'.messages = db.messages ++ [m] ∧
      db'.tickets = db.tickets ∧ db'.statuses = db.statuses ∧
      db'.users = db.users := by
  have hloop := event_generator_loop_spec fragments ""
  set content := String.join ((fragments.takeWhile Option.isSome).filterMap id) with hc
  refine ⟨⟨db.next_id, tid, content, true, db.clock⟩,
          { db with messages := db.messages ++ [⟨db.next_id, tid, content, true, db.clock⟩],
                    next_id := db.next_id + 1, clock := db.clock + 1 },
          ?_, ?_, rfl, rfl, rfl, rfl, rfl, rfl, rfl⟩
  · simp [event_generator, hloop]
  · have hfind : (db.messages ++ [(⟨db.next_id, tid, content, true, db.clock⟩ : Message)]).find?
        (fun m => m.id == db.next_id) = some ⟨db.next_id, tid, content, true, db.clock⟩ := by
      exact find?_append_fresh (fun m : Message => m.id) db.messages
        ⟨db.next_id, tid, content, true, db.clock⟩ hwf.2.1
    simp only [event_generator, hloop, String.empty_append]
    simp only [TicketService.create_message, is_valid_uuid, Bool.not_true,
               Bool.false_eq_true, if_false, hex, MessageRepository.create]
    rw [if_neg (by simp [TicketRepository.exists] at hex; simp [hex])]
    simp [MessageRepository.get, hfind]

/-- Witness for C4: the spec scenario on the sample database — fragments
"Sure", ", ", "I can help." followed by stream end. -/
theorem c4_event_generator_streams_and_persists_witness :
    ∃ m db',
      (event_generator sampleDB 10 [some "Sure", some ", ", some "I can help."]).1 =
        (([some "Sure", some ", ", some "I can help."] :
            List (Option String)).takeWhile Option.isSome).filterMap id ∧
      (event_generator sampleDB 10 [some "Sure", some ", ", some "I can help."]).2 =
        .ok (m, db') ∧
      m.is_ai = true ∧ m.ticket_id = 10 ∧
      m.content = String.join ((([some "Sure", some ", ", some "I can help."] :
            List (Option String)).takeWhile Option.isSome).filterMap id) ∧
      db'.messages = sampleDB.messages ++ [m] ∧
      db'.tickets = sampleDB.tickets ∧ db'.statuses = sampleDB.statuses ∧
      db'.users = sampleDB.users :=
  c4_event_generator_streams_and_persists sampleDB 10
    [some "Sure", some ", ", some "I can help."] (by decide) (by decide)

/-- C5: `get_last_customer_message(T)` fails NotFound when T is absent;
otherwise it returns a most recent (largest `created_at`) message of T with
`is_ai = false`, and returns none exactly when T has no non-AI message —
which covers both the zero-messages case and the all-AI case without
distinguishing them. -/
theorem c5_get_last_customer_message_spec (db : DB) (tid : Nat) :
    (TicketRepository.exists db tid = false →
      TicketService.get_last_customer_message db tid =
        .error (.notFound "Ticket not found")) ∧
    (TicketRepository.exists db tid = true →
      ∃ r, TicketService.get_last_customer_message db tid = .ok r ∧
        (r = none ↔ ∀ m ∈ db.messages, m.ticket_id = tid → m.is_ai = true) ∧
        (∀ m, r = some m → m ∈ db.messages ∧ m.ticket_id = tid ∧ m.is_ai = false ∧
          ∀ m' ∈ db.messages, m'.ticket_id = tid → m'.is_ai = false →
            m'.created_at ≤ m.created_at)) := by
  constructor
  · intro h
    simp [TicketService.get_last_customer_message, is_valid_uuid, h]
  · intro h
    refine ⟨MessageRepository.get_last_customer_message db tid, ?_, ?_, ?_⟩
    · simp [TicketService.get_last_customer_message, is_valid_uuid, h]
    · unfold MessageRepository.get_last_customer_message
      rw [List.head?_eq_none_iff]
      constructor
      · intro hs
        have hlen := congrArg List.length hs
        rw [List.length_mergeSort] at hlen
        have hnil := List.length_eq_zero.mp hlen
        rw [List.filter_eq_nil_iff] at hnil
        intro m hm hmt
        have := hnil m hm
        simp only [Bool.and_eq_true, beq_iff_eq, not_and] at this
        have := this hmt
        simpa using this
      · intro hall
        have hnil : db.messages.filter
            (fun m => m.ticket_id == tid && m.is_ai == false) = [] := by
          rw [List.filter_eq_nil_iff]
          intro m hm
          simp only [Bool.and_eq_true, beq_iff_eq, not_and]
          intro hmt
          simp [hall m hm hmt]
        rw [hnil]
        simp [List.mergeSort]
    · intro m hr
      unfold MessageRepository.get_last_customer_message at hr
      have hsorted : (((db.messages.filter
          (fun m => m.ticket_id == tid && m.is_ai == false))).mergeSort
            (fun a b => decide (b.created_at ≤ a.created_at))).Pairwise
          (fun a b => decide (b.created_at ≤ a.created_at)) := by
        apply List.sorted_mergeSort
        · intro a b c hab hbc
          simp only [decide_eq_true_eq] at *
          omega
        · intro a b
          simp only [Bool.or_eq_true, decide_eq_true_eq]
          omega
      rcases hS : (db.messages.filter
          (fun m => m.ticket_id == tid && m.is_ai == false)).mergeSort
            (fun a b => decide (b.created_at ≤ a.created_at)) with _ | ⟨a, tl⟩
      · rw [hS] at hr
        simp at hr
      · rw [hS] at hr
        simp only [List.head?_cons, Option.some.injEq] at hr
        subst hr
      -- membership of the head in the filtered list
        have hmem : a ∈ db.messages.filter
            (fun m => m.ticket_id == tid && m.is_ai == false) := by
          have : a ∈ (db.messages.filter
              (fun m => m.ticket_id == tid && m.is_ai == false)).mergeSort
                (fun a b => decide (b.created_at ≤ a.created_at)) := by
            rw [hS]; exact List.mem_cons_self a tl
          rwa [List.mem_mergeSort] at this
        have hmem' := List.mem_filter.mp hmem
        refine ⟨hmem'.1, ?_, ?_, ?_⟩
        · have := hmem'.2
          simp only [Bool.and_eq_true, beq_iff_eq] at this
          exact this.1
        · have := hmem'.2
          simp only [Bool.and_eq_true, beq_iff_eq] at this
          exact this.2
        · intro m' hm' hmt' hmai'
          have hmemf : m' ∈ db.messages.filter
              (fun m => m.ticket_id == tid && m.is_ai == false) := by
            rw [List.mem_filter]
            exact ⟨hm', by simp [hmt', hmai']⟩
          have : m' ∈ (db.messages.filter
              (fun m => m.ticket_id == tid && m.is_ai == false)).mergeSort
                (fun a b => decide (b.created_at ≤ a.created_at)) := by
            rwa [List.mem_mergeSort]
          rw [hS] at this
          rcases List.mem_cons.mp this with he | htl
          · subst he; omega
          · rw [hS] at hsorted
            have := (List.pairwise_cons.mp hsorted).1 m' htl
            simpa using this

/-- Witness for C5: ticket 10 of the sample database exists, so the
operation succeeds and the returned option satisfies the specification. -/
theorem c5_get_last_customer_message_spec_witness :
    ∃ r, TicketService.get_last_customer_message sampleDB 10 = .ok r ∧
      (r = none ↔ ∀ m ∈ sampleDB.messages, m.ticket_id = 10 → m.is_ai = true) ∧
      (∀ m, r = some m → m ∈ sampleDB.messages ∧ m.ticket_id = 10 ∧ m.is_ai = false ∧
        ∀ m' ∈ sampleDB.messages, m'.ticket_id = 10 → m'.is_ai = false →
          m'.created_at ≤ m.created_at) :=
  (c5_get_last_customer_message_spec sampleDB 10).2 (by decide)

/-- C6: `list_ticket_messages(T)` fails NotFound when T is absent;
otherwise it returns exactly the messages of T — whatever order they were
inserted in — sorted ascending by `created_at` (the empty list when there
are none, which is the Perm statement for the empty filter). -/
theorem c6_get_ticket_messages_sorted (db : DB) (tid : Nat) :
    (TicketRepository.exists db tid = false →
      TicketService.get_ticket_messages db tid =
        .error (.notFound "Ticket not found")) ∧
    (TicketRepository.exists db tid = true →
      ∃ l, TicketService.get_ticket_messages db tid = .ok l ∧
        l.Perm (db.messages.filter (fun m => m.ticket_id == tid)) ∧
        l.Pairwise (fun a b => a.created_at ≤ b.created_at) ∧
        (∀ m, m ∈ l ↔ m ∈ db.messages ∧ m.ticket_id = tid)) := by
  constructor
  · intro h
    simp [TicketService.get_ticket_messages, is_valid_uuid, h]
  · intro h
    refine ⟨MessageRepository.get_all_by_ticket db tid, ?_, ?_, ?_, ?_⟩
    · simp [TicketService.get_ticket_messages, is_valid_uuid, h]
    · exact List.mergeSort_perm _ _
    · have hsorted := @List.sorted_mergeSort Message
        (fun a b : Message => decide (a.created_at ≤ b.created_at))
        (fun a b c hab hbc => by simp only [decide_eq_true_eq] at *; omega)
        (fun a b => by simp only [Bool.or_eq_true, decide_eq_true_eq]; omega)
        (db.messages.filter (fun m => m.ticket_id == tid))
      exact hsorted.imp (fun hab => by simpa using hab)
    · intro m
      unfold MessageRepository.get_all_by_ticket
      rw [List.mem_mergeSort, List.mem_filter]
      simp

/-- Witness for C6: ticket 10 of the sample database exists. -/
theorem c6_get_ticket_messages_sorted_witness :
    ∃ l, TicketService.get_ticket_messages sampleDB 10 = .ok l ∧
      l.Perm (sampleDB.messages.filter (fun m => m.ticket_id == 10)) ∧
      l.Pairwise (fun a b => a.created_at ≤ b.created_at) ∧
      (∀ m, m ∈ l ↔ m ∈ sampleDB.messages ∧ m.ticket_id = 10) :=
  (c6_get_ticket_messages_sorted sampleDB 10).2 (by decide)

/-- C7: two create_ticket_status calls whose raw names have the same
non-empty normalized form (lowercased then stripped, as `validate_name`
does) yield one success that stores the normalized name followed by a
Conflict, and a name that normalizes to the empty string fails the pydantic
validation with "Name cannot be empty." before anything is created. -/
theorem c7_create_ticket_status_conflict_on_duplicate (db : DB)
    (raw1 raw2 raw_empty : String) (hwf : db.wf)
    (hnorm : str_strip (str_lower raw2) = str_strip (str_lower raw1))
    (hne : str_strip (str_lower raw1) ≠ "")
    (hfresh : ∀ s ∈ db.statuses, s.name ≠ str_strip (str_lower raw1))
    (hempty : str_strip (str_lower raw_empty) = "") :
    (∃ s db', Router.create_ticket_status db raw1 = .ok (s, db') ∧
      s.name = str_strip (str_lower raw1) ∧
      db'.statuses = db.statuses ++ [s] ∧
      Router.create_ticket_status db' raw2 =
        .error (.conflict "Ticket status with this name already exists")) ∧
    Router.create_ticket_status db raw_empty =
      .error (.invalidInput "Name cannot be empty.") := by
  constructor
  · set v := str_strip (str_lower raw1) with hv
    have hany : db.statuses.any (fun s => s.name == v) = false := by
      rw [List.any_eq_false]
      intro s hs
      simpa using hfresh s hs
    have hfind : (db.statuses ++ [(⟨db.next_id, v⟩ : TicketStatus)]).find?
        (fun s => s.id == db.next_id) = some ⟨db.next_id, v⟩ :=
      find?_append_fresh (fun s : TicketStatus => s.id) db.statuses
        ⟨db.next_id, v⟩ hwf.2.2
    refine ⟨⟨db.next_id, v⟩,
            { db with statuses := db.statuses ++ [⟨db.next_id, v⟩],
                      next_id := db.next_id + 1 }, ?_, rfl, rfl, ?_⟩
    · simp only [Router.create_ticket_status, TicketStatusCreate.make,
                 validate_name]
      rw [if_neg hne]
      simp only [TicketService.create_ticket_status, TicketStatusRepository.create,
                 hany, Bool.false_eq_true, if_false]
      simp [TicketStatusRepository.get, hfind]
    · simp only [Router.create_ticket_status, TicketStatusCreate.make,
                 validate_name, hnorm]
      rw [if_neg hne]
      have hdup : (db.statuses ++ [(⟨db.next_id, v⟩ : TicketStatus)]).any
          (fun s => s.name == v) = true := by
        rw [List.any_eq_true]
        exact ⟨⟨db.next_id, v⟩, by simp⟩
      simp [TicketService.create_ticket_status, TicketStatusRepository.create, hdup]
  · simp [Router.create_ticket_status, TicketStatusCreate.make,
          validate_name, hempty]

/-- Witness for C7: on the sample database, " New " and "NEW" normalize to
"new", which is fresh; "  " normalizes to the empty string. -/
theorem c7_create_ticket_status_conflict_on_duplicate_witness :
    (∃ s db', Router.create_ticket_status sampleDB " New " = .ok (s, db') ∧
      s.name = str_strip (str_lower " New ") ∧
      db'.statuses = sampleDB.statuses ++ [s] ∧
      Router.create_ticket_status db' "NEW" =
        .error (.conflict "Ticket status with this name already exists")) ∧
    Router.create_ticket_status sampleDB "  " =
      .error (.invalidInput "Name cannot be empty.") :=
  c7_create_ticket_status_conflict_on_duplicate sampleDB " New " "NEW" "  "
    (by decide) (by decide) (by decide) (by decide) (by decide)

/-- A database with no rows at all. -/
def emptyDB : DB :=
  { users := [], statuses := [], tickets := [], messages := [],
    next_id := 0, clock := 0 }

/-- The state seen by the caller after a create_ticket call: the new state
on success; on failure the incoming state, because the HTTPException is
raised before any repository write touches the session. -/
def create_ticket_result_state (db : DB) (tc : TicketCreate) : DB :=
  match TicketService.create_ticket db tc with
  | .ok (_, db') => db'
  | .error _ => db

/-- Counterexample to C8 as stated: a create_ticket request referencing the
nonexistent status 99 whose owner (user 5) does not exist either fails
NotFound "User not found" — the owner check runs first — not the claimed
NotFound "Ticket status not found". -/
theorem c8_counterexample_user_checked_first :
    TicketService.create_ticket emptyDB
        { title := "x", status_id := some 99, user_id := some 5 } =
      .error (.notFound "User not found") ∧
    TicketService.create_ticket emptyDB
        { title := "x", status_id := some 99, user_id := some 5 } ≠
      .error (.notFound "Ticket status not found") := by
  decide

/-- C8 (amended): for every create_ticket request whose owner references an
existing user and whose status_id references a nonexistent status, the
operation fails NotFound "Ticket status not found" and the ticket store is
left unchanged — a subsequent listing of all tickets on the resulting state
shows exactly the old rows. -/
theorem c8_create_ticket_missing_status_amended (db : DB) (tc : TicketCreate)
    (sid : Nat) (huser : (UserRepository.get db tc.user_id).isSome = true)
    (hsid : tc.status_id = some sid)
    (hstatus : TicketStatusRepository.exists db (some sid) = false) :
    TicketService.create_ticket db tc =
      .error (.notFound "Ticket status not found") ∧
    TicketService.get_all_tickets (create_ticket_result_state db tc) =
      db.tickets := by
  have hnone : (UserRepository.get db tc.user_id).isNone = false := by
    rcases hu : UserRepository.get db tc.user_id with _ | u
    · rw [hu] at huser; simp at huser
    · rfl
  have herr : TicketService.create_ticket db tc =
      .error (.notFound "Ticket status not found") := by
    unfold TicketService.create_ticket
    rw [hnone, hsid, hstatus]
    simp
  exact ⟨herr, by simp [create_ticket_result_state, herr,
                        TicketService.get_all_tickets, TicketRepository.get_all]⟩

/-- Witness for C8 (amended): on the sample database, user 1 exists and
status 99 does not. -/
theorem c8_create_ticket_missing_status_amended_witness :
    TicketService.create_ticket sampleDB
        { title := "x", status_id := some 99, user_id := some 1 } =
      .error (.notFound "Ticket status not found") ∧
    TicketService.get_all_tickets (create_ticket_result_state sampleDB
        { title := "x", status_id := some 99, user_id := some 1 }) =
      sampleDB.tickets :=
  c8_create_ticket_missing_status_amended sampleDB
    { title := "x", status_id := some 99, user_id := some 1 } 99
    (by decide) rfl (by decide)

/-- C9: a successful create_ticket call returns the re-read just-written
row: its title, description, owner and status equal the creation inputs,
its `created_at` is filled from the clock at creation time (hence present),
the row is exactly what a repository lookup of its id on the new state
finds, and `get_ticket` on the new state returns that same record. -/
theorem c9_create_then_get_roundtrip (db : DB) (tc : TicketCreate)
    (t : Ticket) (db' : DB) (hwf : db.wf)
    (h : TicketService.create_ticket db tc = .ok (t, db')) :
    tc.user_id = some t.user_id ∧ t.title = tc.title ∧
    t.description = tc.description ∧ t.status_id = tc.status_id ∧
    t.created_at = db.clock ∧
    TicketRepository.get db' t.id = some t ∧
    TicketService.get_ticket db' t.id = .ok t := by
  unfold TicketService.create_ticket at h
  rcases hu : UserRepository.get db tc.user_id with _ | u
  · rw [hu] at h; simp at h
  · rw [hu] at h
    simp only [Option.isNone_some, Bool.false_eq_true, if_false] at h
    rcases hst : TicketStatusRepository.exists db tc.status_id with _ | _
    · rw [hst] at h; simp at h
    · rw [hst] at h
      simp only [Bool.not_true, Bool.false_eq_true, if_false] at h
      rcases huid : tc.user_id with _ | uid
      · rw [huid] at hu; simp [UserRepository.get] at hu
      · unfold TicketRepository.create at h
        rw [huid] at h
        have hany : db.users.any (fun x => x.id == uid) = true := by
          rw [huid] at hu
          simp only [UserRepository.get] at hu
          rw [List.any_eq_true]
          have hp := List.find?_some (p := fun x : User => x.id == uid)
            (a := u) (l := db.users) hu
          exact ⟨u, List.mem_of_find?_eq_some hu, hp⟩
        rcases hsid : tc.status_id with _ | sid
        · rw [hsid] at hst; simp [TicketStatusRepository.exists] at hst
        · have hsany : db.statuses.any (fun s => s.id == sid) = true := by
            rw [hsid] at hst
            simpa [TicketStatusRepository.exists] using hst
          rw [hsid] at h
          simp only [hany, Bool.not_true, Bool.false_eq_true, if_false,
                     Option.any_some, hsany, Bool.not_false] at h
          have hfind : (db.tickets ++
              [(⟨db.next_id, tc.title, tc.description, uid, some sid,
                 db.clock⟩ : Ticket)]).find?
              (fun x => x.id == db.next_id) =
              some ⟨db.next_id, tc.title, tc.description, uid, some sid,
                    db.clock⟩ :=
            find?_append_fresh (fun x : Ticket => x.id) db.tickets
              ⟨db.next_id, tc.title, tc.description, uid, some sid, db.clock⟩
              hwf.1
          simp only [TicketRepository.get, hfind] at h
          simp only [Except.ok.injEq, Prod.mk.injEq] at h
          obtain ⟨h1, h2⟩ := h
          subst h1
          subst h2
          exact ⟨rfl, rfl, rfl, rfl, rfl, hfind,
                 by simp [TicketService.get_ticket, is_valid_uuid,
                          TicketRepository.get, hfind]⟩

/-- Witness for C9: create a ticket for user 2 with status 4 on the sample
database and read it back. -/
theorem c9_create_then_get_roundtrip_witness :
    ((⟨"t2", "d2", some 4, some 2⟩ : TicketCreate).user_id =
      some (⟨11, "t2", "d2", 2, some 4, 1⟩ : Ticket).user_id) ∧
    (⟨11, "t2", "d2", 2, some 4, 1⟩ : Ticket).title = "t2" ∧
    (⟨11, "t2", "d2", 2, some 4, 1⟩ : Ticket).description = "d2" ∧
    (⟨11, "t2", "d2", 2, some 4, 1⟩ : Ticket).status_id = some 4 ∧
    (⟨11, "t2", "d2", 2, some 4, 1⟩ : Ticket).created_at = sampleDB.clock ∧
    TicketRepository.get
      { sampleDB with tickets := sampleDB.tickets ++ [⟨11, "t2", "d2", 2, some 4, 1⟩],
                      next_id := 12, clock := 2 } 11 =
      some ⟨11, "t2", "d2", 2, some 4, 1⟩ ∧
    TicketService.get_ticket
      { sampleDB with tickets := sampleDB.tickets ++ [⟨11, "t2", "d2", 2, some 4, 1⟩],
                      next_id := 12, clock := 2 } 11 =
      .ok ⟨11, "t2", "d2", 2, some 4, 1⟩ :=
  c9_create_then_get_roundtrip sampleDB ⟨"t2", "d2", some 4, some 2⟩
    ⟨11, "t2", "d2", 2, some 4, 1⟩
    { sampleDB with tickets := sampleDB.tickets ++ [⟨11, "t2", "d2", 2, some 4, 1⟩],
                    next_id := 12, clock := 2 }
    (by decide) (by decide)

/-- C10 (resolving the open question from the declared schema): deleting an
existing status S succeeds, removes S and only S from the catalog, keeps
every ticket (same count), clears `status_id` to null exactly on the
tickets that referenced S while leaving their other fields unchanged, and
touches neither messages nor users — the behaviour of the declared
`ondelete="SET NULL"` foreign-key action. -/
theorem c10_delete_status_sets_null (db : DB) (sid : Nat)
    (hex : TicketStatusRepository.exists db (some sid) = true) :
    ∃ db', TicketService.delete_ticket_status db sid = .ok db' ∧
      (∀ s ∈ db'.statuses, s.id ≠ sid) ∧
      (∀ s ∈ db.statuses, s.id ≠ sid → s ∈ db'.statuses) ∧
      db'.tickets.length = db.tickets.length ∧
      (∀ t ∈ db.tickets, ∃ t' ∈ db'.tickets,
        t'.id = t.id ∧ t'.title = t.title ∧ t'.description = t.description ∧
        t'.user_id = t.user_id ∧ t'.created_at = t.created_at ∧
        t'.status_id = (if t.status_id = some sid then none else t.status_id)) ∧
      db'.messages = db.messages ∧ db'.users = db.users := by
  refine ⟨TicketStatusRepository.delete db sid, ?_, ?_, ?_, ?_, ?_, rfl, rfl⟩
  · simp [TicketService.delete_ticket_status, is_valid_uuid, hex]
  · intro s hs
    unfold TicketStatusRepository.delete at hs
    have := (List.mem_filter.mp hs).2
    simpa using this
  · intro s hs hne
    unfold TicketStatusRepository.delete
    exact List.mem_filter.mpr ⟨hs, by simpa using hne⟩
  · unfold TicketStatusRepository.delete
    simp
  · intro t ht
    refine ⟨if t.status_id == some sid then { t with status_id := none } else t,
            ?_, ?_⟩
    · unfold TicketStatusRepository.delete
      exact List.mem_map_of_mem _ ht
    · by_cases hc : t.status_id = some sid <;> simp [hc]

/-- Witness for C10: status 4 of the sample database exists and is
referenced by ticket 10. -/
theorem c10_delete_status_sets_null_witness :
    ∃ db', TicketService.delete_ticket_status sampleDB 4 = .ok db' ∧
      (∀ s ∈ db'.statuses, s.id ≠ 4) ∧
      (∀ s ∈ sampleDB.statuses, s.id ≠ 4 → s ∈ db'.statuses) ∧
      db'.tickets.length = sampleDB.tickets.length ∧
      (∀ t ∈ sampleDB.tickets, ∃ t' ∈ db'.tickets,
        t'.id = t.id ∧ t'.title = t.title ∧ t'.description = t.description ∧
        t'.user_id = t.user_id ∧ t'.created_at = t.created_at ∧
        t'.status_id = (if t.status_id = some 4 then none else t.status_id)) ∧
      db'.messages = sampleDB.messages ∧ db'.users = sampleDB.users :=
  c10_delete_status_sets_null sampleDB 4 (by decide)

end TicketApi
